import Mathlib

/-!
Verification of the request/poll core of cirrus-run.

The definitions below are a shallow embedding of `src/cirrus_run/queries.py`
(the build poller `wait_build` and the log streamer `build_log`) and of the
HTTP transport retry loop exercised by `src/tests/test_api_long_delay.py`.

Remote interaction is modelled by explicit oracles: the poller consumes a
list of successive status responses (each paired with the wall-clock cost of
that poll), the log streamer takes a `get` function from URLs to HTTP
responses, and the transport takes a function from attempt index to HTTP
response.  Wall-clock time is modelled with rationals; every `sleep` call and
every poll/log emission is recorded in an explicit event trace so that
timing and ordering properties are statable.
-/

namespace CirrusRun

/-- One `message` entry of a task's `notifications` list. -/
structure Notification where
  message : String
deriving Repr, DecidableEq

/-- One entry of a build's `tasks` list, as fetched by the `GetBuild` query
of `wait_build` (only the notifications are used there). -/
structure Task where
  notifications : List Notification
deriving Repr, DecidableEq

/-- The (parsed) reply of the `GetBuild` query: `response['build']`. -/
structure BuildStatusResponse where
  status : String
  tasks : List Task
deriving Repr, DecidableEq

/-- Python `needle in hay`, substring containment on lists of characters:
true iff `needle` occurs contiguously inside `hay`. -/
def charsPrefixOf : List Char → List Char → Bool
  | [], _ => true
  | _ :: _, [] => false
  | c :: cs, d :: ds => c = d && charsPrefixOf cs ds

/-- Python `needle in hay` for strings (substring containment). -/
def charsContains (needle : List Char) : List Char → Bool
  | [] => needle.isEmpty
  | d :: ds => charsPrefixOf needle (d :: ds) || charsContains needle ds

/-- Python `needle in hay` for `String` (substring containment). -/
def strIn (needle hay : String) : Bool :=
  charsContains needle.toList hay.toList

/-- `{'COMPLETED'}` of `wait_build`. -/
def COMPLETED_STATUSES : List String := ["COMPLETED"]

/-- `{'CREATED', 'TRIGGERED', 'EXECUTING'}` of `wait_build`. -/
def ACTIVE_STATUSES : List String := ["CREATED", "TRIGGERED", "EXECUTING"]

/-- `{'NEEDS_APPROVAL', 'FAILED', 'ABORTED', 'ERRORED'}` of `wait_build`. -/
def ERROR_STATUSES : List String := ["NEEDS_APPROVAL", "FAILED", "ABORTED", "ERRORED"]

/-- `ERROR_CONFIRM_TIMES = 3` of `wait_build`. -/
def ERROR_CONFIRM_TIMES : Nat := 3

/-- The credits scan of `wait_build`: with a configured
`credits_error_message`, scan every notification message of every task for
it as a substring. -/
def creditsDetected (credits_error_message : Option String) (tasks : List Task) : Bool :=
  match credits_error_message with
  | none => false
  | some msg => tasks.any fun task =>
      task.notifications.any fun notif => strIn msg notif.message

/-- Observable events of one `wait_build` run: each status poll (the api
call of the loop body, recorded with the status it returned) and each
`sleep` (recorded with its duration). -/
inductive WEvent where
  | poll (status : String)
  | sleepEv (d : ℚ)
deriving Repr, DecidableEq

/-- Outcome of `wait_build`: `True` on COMPLETED, or one of the raised
errors.  `exhausted` is a model artifact: the supplied response trace ran
out while the loop would have polled again. -/
inductive WaitResult where
  | success
  | creditsError (buildId : String)
  | buildError (buildId status : String)
  | valueError (buildId status : String)
  | timeoutError (buildId : String)
  | exhausted
deriving Repr, DecidableEq

/-- The polling loop of `wait_build`.  `responses` is the oracle for the
successive `api(query, params)` calls, pairing each reply with the
wall-clock duration of that call; `t` is the current value of
`time.monotonic()` and `time_start` its value when the loop started.
Mirrors `queries.py` lines 110-134: the `while time() < time_start + abort`
guard, the four status classifications, the counter update and the two
sleep amounts. -/
def wait_build_loop (buildId : String) (delay abort_ time_start : ℚ)
    (credits_error_message : Option String) :
    List (BuildStatusResponse × ℚ) → ℚ → Nat → WaitResult × List WEvent
  | [], t, _ =>
    if t < time_start + abort_ then (.exhausted, []) else (.timeoutError buildId, [])
  | (response, cost) :: rest, t, errors_confirmed =>
    if t < time_start + abort_ then
        let t := t + cost
        let status := response.status
        if status ∈ COMPLETED_STATUSES then
          (.success, [.poll status])
        else if status ∈ ACTIVE_STATUSES then
          let next := wait_build_loop buildId delay abort_ time_start
            credits_error_message rest (t + delay) 0
          (next.1, .poll status :: .sleepEv delay :: next.2)
        else if status ∈ ERROR_STATUSES then
          let errors_confirmed := errors_confirmed + 1
          if errors_confirmed < ERROR_CONFIRM_TIMES then
            let s := 2 * delay / ((ERROR_CONFIRM_TIMES : ℚ) - 1)
            let next := wait_build_loop buildId delay abort_ time_start
              credits_error_message rest (t + s) errors_confirmed
            (next.1, .poll status :: .sleepEv s :: next.2)
          else
            if creditsDetected credits_error_message response.tasks then
              (.creditsError buildId, [.poll status])
            else
              (.buildError buildId status, [.poll status])
        else
          (.valueError buildId status, [.poll status])
    else
      (.timeoutError buildId, [])

/-- `wait_build(api, build_id, delay, abort, credits_error_message)`:
start the clock at 0 and run the polling loop with the error counter at 0. -/
def wait_build (buildId : String) (responses : List (BuildStatusResponse × ℚ))
    (delay abort_ : ℚ) (credits_error_message : Option String) :
    WaitResult × List WEvent :=
  wait_build_loop buildId delay abort_ 0 credits_error_message responses 0 0

/-- Number of status polls recorded in a trace. -/
def pollCount (evs : List WEvent) : Nat :=
  evs.countP fun e => match e with | .poll _ => true | _ => false

/-! ## Log streamer (`build_log`, `queries.py` lines 137-164) -/

/-- One entry of a task's `commands` list in the `GetBuildLog` reply. -/
structure Command where
  name : String
deriving Repr, DecidableEq

/-- One entry of the `tasks` list in the `GetBuildLog` reply. -/
structure LogTask where
  id : String
  name : String
  commands : List Command
deriving Repr, DecidableEq

/-- The value of `api.get(url)`: a status code and a body text. -/
structure HttpResponse where
  status_code : Nat
  text : String
deriving Repr, DecidableEq

/-- The `url_template` of `build_log`, instantiated at a task and command:
`https://api.cirrus-ci.com/v1/task/{task[id]}/logs/{command[name]}.log`. -/
def log_url (task : LogTask) (command : Command) : String :=
  "https://api.cirrus-ci.com/v1/task/" ++ task.id ++ "/logs/" ++ command.name ++ ".log"

/-- The chunks `build_log` yields for one command of one task: the command
header, then either the fetched body (when `log.status_code == 200`) or the
`Unable to fetch url` placeholder. -/
def command_chunks (get : String → HttpResponse) (task : LogTask) (command : Command) :
    List String :=
  let url := log_url task command
  let log := get url
  ["\n## Task instruction: " ++ command.name,
   if log.status_code = 200 then log.text else "Unable to fetch url: " ++ url]

/-- The chunks `build_log` yields for one task: the task header, then the
chunks of each of its commands in order. -/
def task_chunks (get : String → HttpResponse) (task : LogTask) : List String :=
  ("\n## Task: " ++ task.name) :: task.commands.flatMap (command_chunks get task)

/-- `build_log(api, build_id)`: the full sequence of yielded chunks, in
order, over the tasks of the `GetBuildLog` reply.  `get` models `api.get`. -/
def build_log (get : String → HttpResponse) (tasks : List LogTask) : List String :=
  tasks.flatMap (task_chunks get)

/-! ## Transport retry loop -/

/-- Observable events of one transport call: each HTTP attempt (with its
index, 0-based), each `sleep`, and each emission of the
`API server asked for longer retry delay` diagnostic log line. -/
inductive TEvent where
  | attempt (idx : Nat)
  | sleepT (d : ℚ)
  | logLongDelay
deriving Repr, DecidableEq

/-- Outcome of one transport call: a parsed success body, or the
HTTP-failure error carrying the last response's status and body. -/
inductive TResult where
  | ok (body : String)
  | httpError (status : Nat) (body : String)
deriving Repr, DecidableEq

/-- Modelled from the spec: the attempt cap of the Transport
(`CirrusAPI` of module `cirrus_run.api`, whose source is not in the
repository snapshot; only its tests are).  Spec 4.1: an attempt budget of 4
total attempts (1 initial + 3 retries) per call. -/
def ATTEMPT_CAP : Nat := 4

/-- Modelled from the spec: whether an HTTP response fails the attempt.
Spec 4.1: an attempt fails when the response indicates a server-side or
transient error (non-2xx, specifically the 5xx class). -/
def attemptFailed (r : HttpResponse) : Bool :=
  decide (¬ (200 ≤ r.status_code ∧ r.status_code < 300))

/-- Modelled from the spec: the retry loop of one Transport call
(`CirrusAPI.__call__` / `_post` of module `cirrus_run.api`, whose source is
not in the repository snapshot).  `responses` maps the 0-based attempt index
to the HTTP response of that attempt and `hint` recognizes the
"please retry after N seconds" text in a response body.  Spec 4.1: on a
failed attempt, if it is the first failed attempt of the call and the hint
is present, sleep the long delay and log the diagnostic once; otherwise
sleep the short delay; retry until the budget of `remaining` attempts is
exhausted, then fail with the last response's status and body.  Since a
successful attempt ends the call, the first failed attempt is the attempt
at index 0. -/
def transport_go (shortD longD : ℚ) (hint : String → Bool)
    (responses : Nat → HttpResponse) : Nat → Nat → TResult × List TEvent
  | 0, _ => (.httpError 0 "", [])
  | remaining + 1, idx =>
    let r := responses idx
    if attemptFailed r then
      match remaining with
      | 0 => (.httpError r.status_code r.text, [.attempt idx])
      | remaining + 1 =>
        if idx = 0 ∧ hint r.text then
          let next := transport_go shortD longD hint responses (remaining + 1) (idx + 1)
          (next.1, .attempt idx :: .logLongDelay :: .sleepT longD :: next.2)
        else
          let next := transport_go shortD longD hint responses (remaining + 1) (idx + 1)
          (next.1, .attempt idx :: .sleepT shortD :: next.2)
    else
      (.ok r.text, [.attempt idx])

/-- Modelled from the spec: one Transport call, entered with the full
attempt budget at attempt index 0. -/
def transport_call (shortD longD : ℚ) (hint : String → Bool)
    (responses : Nat → HttpResponse) : TResult × List TEvent :=
  transport_go shortD longD hint responses ATTEMPT_CAP 0

/-- Total slept time recorded in a transport event trace. -/
def sleepSum (evs : List TEvent) : ℚ :=
  (evs.map fun e => match e with | .sleepT d => d | _ => 0).sum

/-- Number of `longer retry delay` diagnostic log lines in a trace. -/
def logLongCount (evs : List TEvent) : Nat :=
  evs.countP fun e => match e with | .logLongDelay => true | _ => false

/-- Number of HTTP attempts recorded in a transport event trace. -/
def attemptCount (evs : List TEvent) : Nat :=
  evs.countP fun e => match e with | .attempt _ => true | _ => false

/-! ## Step lemmas for the polling loop -/

/-- The flaky-observation re-check sleep `2 * delay / (ERROR_CONFIRM_TIMES - 1)`
evaluates to the full poll interval `delay`. -/
theorem recheck_sleep_eq (delay : ℚ) :
    2 * delay / ((ERROR_CONFIRM_TIMES : ℚ) - 1) = delay := by
  norm_num [ERROR_CONFIRM_TIMES]

/-- When the elapsed time is at or past the timeout, the loop raises the
timeout error with no poll and no sleep. -/
theorem wait_build_loop_timeout (b : String) (delay ab ts : ℚ) (cr : Option String)
    (l : List (BuildStatusResponse × ℚ)) (t : ℚ) (ec : Nat) (h : ¬ t < ts + ab) :
    wait_build_loop b delay ab ts cr l t ec = (.timeoutError b, []) := by
  cases l with
  | nil => simp [wait_build_loop, h]
  | cons hd tl => obtain ⟨resp, c⟩ := hd; simp [wait_build_loop, h]

/-- When the trace of responses runs out, the loop is still polling. -/
theorem wait_build_loop_nil (b : String) (delay ab ts : ℚ) (cr : Option String)
    (t : ℚ) (ec : Nat) (h : t < ts + ab) :
    wait_build_loop b delay ab ts cr [] t ec = (.exhausted, []) := by
  simp [wait_build_loop, h]

/-- A poll observing COMPLETED returns success at once, whatever the
counter, the poll's cost and the rest of the trace. -/
theorem wait_build_loop_completed (b : String) (delay ab ts : ℚ) (cr : Option String)
    (tk : List Task) (c : ℚ) (rest : List (BuildStatusResponse × ℚ)) (t : ℚ) (ec : Nat)
    (h : t < ts + ab) :
    wait_build_loop b delay ab ts cr ((⟨"COMPLETED", tk⟩, c) :: rest) t ec =
      (.success, [.poll "COMPLETED"]) := by
  simp [wait_build_loop, h, COMPLETED_STATUSES]

/-- A poll observing an Active status sleeps the poll interval and
continues with the error counter reset to 0. -/
theorem wait_build_loop_active (b : String) (delay ab ts : ℚ) (cr : Option String)
    (s : String) (tk : List Task) (c : ℚ) (rest : List (BuildStatusResponse × ℚ))
    (t : ℚ) (ec : Nat) (hs : s ∈ ACTIVE_STATUSES) (h : t < ts + ab) :
    wait_build_loop b delay ab ts cr ((⟨s, tk⟩, c) :: rest) t ec =
      ((wait_build_loop b delay ab ts cr rest (t + c + delay) 0).1,
       .poll s :: .sleepEv delay ::
         (wait_build_loop b delay ab ts cr rest (t + c + delay) 0).2) := by
  simp only [ACTIVE_STATUSES, List.mem_cons, List.not_mem_nil, or_false] at hs
  rcases hs with rfl | rfl | rfl <;>
    simp [wait_build_loop, h, COMPLETED_STATUSES, ACTIVE_STATUSES]

/-- A poll observing an error-candidate status below the confirmation
threshold increments the counter, sleeps the re-check interval (which
equals the full poll interval) and continues. -/
theorem wait_build_loop_error_step (b : String) (delay ab ts : ℚ) (cr : Option String)
    (s : String) (tk : List Task) (c : ℚ) (rest : List (BuildStatusResponse × ℚ))
    (t : ℚ) (ec : Nat) (hs : s ∈ ERROR_STATUSES) (h : t < ts + ab)
    (hec : ec + 1 < ERROR_CONFIRM_TIMES) :
    wait_build_loop b delay ab ts cr ((⟨s, tk⟩, c) :: rest) t ec =
      ((wait_build_loop b delay ab ts cr rest (t + c + delay) (ec + 1)).1,
       .poll s :: .sleepEv delay ::
         (wait_build_loop b delay ab ts cr rest (t + c + delay) (ec + 1)).2) := by
  simp only [ERROR_STATUSES, List.mem_cons, List.not_mem_nil, or_false] at hs
  rcases hs with rfl | rfl | rfl | rfl <;>
    simp [wait_build_loop, h, hec, COMPLETED_STATUSES, ACTIVE_STATUSES, ERROR_STATUSES,
      recheck_sleep_eq]

/-- A poll observing an error-candidate status at the confirmation
threshold ends polling: credits failure when the scan finds the recognizer,
generic build failure carrying the observed status otherwise. -/
theorem wait_build_loop_error_confirm (b : String) (delay ab ts : ℚ) (cr : Option String)
    (s : String) (tk : List Task) (c : ℚ) (rest : List (BuildStatusResponse × ℚ))
    (t : ℚ) (ec : Nat) (hs : s ∈ ERROR_STATUSES) (h : t < ts + ab)
    (hec : ¬ ec + 1 < ERROR_CONFIRM_TIMES) :
    wait_build_loop b delay ab ts cr ((⟨s, tk⟩, c) :: rest) t ec =
      (if creditsDetected cr tk then (.creditsError b, [.poll s])
       else (.buildError b s, [.poll s])) := by
  simp only [ERROR_STATUSES, List.mem_cons, List.not_mem_nil, or_false] at hs
  rcases hs with rfl | rfl | rfl | rfl <;>
    · by_cases hcd : creditsDetected cr tk <;>
        simp [wait_build_loop, h, hec, hcd, COMPLETED_STATUSES, ACTIVE_STATUSES, ERROR_STATUSES]

/-- A poll observing a status outside the known enumeration fails at once
with the protocol error, whatever the counter, with no sleep. -/
theorem wait_build_loop_unknown (b : String) (delay ab ts : ℚ) (cr : Option String)
    (s : String) (tk : List Task) (c : ℚ) (rest : List (BuildStatusResponse × ℚ))
    (t : ℚ) (ec : Nat)
    (hs1 : s ∉ COMPLETED_STATUSES) (hs2 : s ∉ ACTIVE_STATUSES) (hs3 : s ∉ ERROR_STATUSES)
    (h : t < ts + ab) :
    wait_build_loop b delay ab ts cr ((⟨s, tk⟩, c) :: rest) t ec =
      (.valueError b s, [.poll s]) := by
  simp [wait_build_loop, h, hs1, hs2, hs3]

/-- Whenever the timeout check passes, the cycle issues its poll: the trace
continues with a poll of the observed status, whatever that status is. -/
theorem wait_build_loop_poll_first (b : String) (delay ab ts : ℚ) (cr : Option String)
    (resp : BuildStatusResponse) (c : ℚ) (rest : List (BuildStatusResponse × ℚ))
    (t : ℚ) (ec : Nat) (h : t < ts + ab) :
    ∃ tl, (wait_build_loop b delay ab ts cr ((resp, c) :: rest) t ec).2 =
      .poll resp.status :: tl := by
  simp only [wait_build_loop, if_pos h]
  repeat' split
  all_goals exact ⟨_, rfl⟩

/-- The credits scan succeeds exactly when some notification message of
some task contains the configured recognizer as a substring. -/
theorem creditsDetected_some_iff (msg : String) (tasks : List Task) :
    creditsDetected (some msg) tasks = true ↔
      ∃ task ∈ tasks, ∃ notif ∈ task.notifications, strIn msg notif.message = true := by
  simp [creditsDetected, List.any_eq_true]

/-! ## Claims -/

/-- C1, counterexample: polling `FAILED` with poll interval 3 sleeps 3 — the
full interval — while two-thirds of the interval would be 2, so the claimed
sleep of two-thirds of the `delay` parameter is not what the code does. -/
theorem C1_counterexample :
    (wait_build "b" [(⟨"FAILED", []⟩, 0)] 3 100 none).2 =
      [WEvent.poll "FAILED", WEvent.sleepEv 3] ∧
    ¬ ((3 : ℚ) = 2 / 3 * 3) := by
  constructor
  · rw [wait_build, wait_build_loop_error_step "b" 3 100 0 none "FAILED" [] 0 [] 0 0
      (by decide) (by norm_num) (by decide)]
    rw [wait_build_loop_nil "b" 3 100 0 none (0 + 0 + 3) 1 (by norm_num)]
  · norm_num

/-- C1, amended: when an error-candidate status is observed below the
confirmation threshold, the poller sleeps `2 * delay / (ERROR_CONFIRM_TIMES - 1)`,
which with the threshold of 3 equals the full poll interval `delay` (not
two-thirds of it), before polling again. -/
theorem C1_error_sleep_full_interval (b s : String) (tk : List Task) (c c2 : ℚ)
    (r2 : BuildStatusResponse) (rest : List (BuildStatusResponse × ℚ))
    (delay ab : ℚ) (cr : Option String)
    (hs : s ∈ ERROR_STATUSES) (h0 : 0 < ab) (h1 : c + delay < ab) :
    ∃ tl, (wait_build b ((⟨s, tk⟩, c) :: (r2, c2) :: rest) delay ab cr).2 =
      .poll s :: .sleepEv delay :: .poll r2.status :: tl := by
  rw [wait_build, wait_build_loop_error_step b delay ab 0 cr s tk c _ 0 0 hs
    (by linarith) (by decide)]
  obtain ⟨tl, htl⟩ := wait_build_loop_poll_first b delay ab 0 cr r2 c2 rest
    (0 + c + delay) 1 (by linarith)
  refine ⟨tl, ?_⟩
  simp only [zero_add] at htl ⊢
  simp [htl]

/-- C1, amended, witness. -/
theorem C1_error_sleep_full_interval_witness :
    ∃ tl, (wait_build "b" [(⟨"FAILED", []⟩, 0), (⟨"FAILED", []⟩, 0)] 3 100 none).2 =
      .poll "FAILED" :: .sleepEv 3 :: .poll "FAILED" :: tl :=
  C1_error_sleep_full_interval "b" "FAILED" [] 0 0 ⟨"FAILED", []⟩ [] 3 100 none
    (by decide) (by norm_num) (by norm_num)

/-- C2: three consecutive error-candidate observations, with no intervening
Active observation, make the poller fail on the third — with the credits or
the generic build failure — and the full trace holds exactly those three
polls, whatever responses would have followed. -/
theorem C2_three_errors_confirm (b s1 s2 s3 : String) (tk1 tk2 tk3 : List Task)
    (c1 c2 c3 : ℚ) (rest : List (BuildStatusResponse × ℚ)) (delay ab : ℚ)
    (cr : Option String)
    (h1 : s1 ∈ ERROR_STATUSES) (h2 : s2 ∈ ERROR_STATUSES) (h3 : s3 ∈ ERROR_STATUSES)
    (t0 : 0 < ab) (t1 : c1 + delay < ab) (t2 : c1 + delay + c2 + delay < ab) :
    ((wait_build b ((⟨s1, tk1⟩, c1) :: (⟨s2, tk2⟩, c2) :: (⟨s3, tk3⟩, c3) :: rest)
        delay ab cr).1 = .creditsError b ∨
     (wait_build b ((⟨s1, tk1⟩, c1) :: (⟨s2, tk2⟩, c2) :: (⟨s3, tk3⟩, c3) :: rest)
        delay ab cr).1 = .buildError b s3) ∧
    (wait_build b ((⟨s1, tk1⟩, c1) :: (⟨s2, tk2⟩, c2) :: (⟨s3, tk3⟩, c3) :: rest)
        delay ab cr).2 =
      [.poll s1, .sleepEv delay, .poll s2, .sleepEv delay, .poll s3] := by
  rw [wait_build,
    wait_build_loop_error_step b delay ab 0 cr s1 tk1 c1 _ 0 0 h1
      (by linarith) (by decide),
    wait_build_loop_error_step b delay ab 0 cr s2 tk2 c2 _ (0 + c1 + delay) 1 h2
      (by linarith) (by decide),
    wait_build_loop_error_confirm b delay ab 0 cr s3 tk3 c3 rest
      (0 + c1 + delay + c2 + delay) 2 h3 (by linarith) (by decide)]
  by_cases hcd : creditsDetected cr tk3 <;> simp [hcd]

/-- C2, witness. -/
theorem C2_three_errors_confirm_witness :
    ((wait_build "b" [(⟨"FAILED", []⟩, 0), (⟨"ABORTED", []⟩, 0), (⟨"ERRORED", []⟩, 0)]
        3 100 none).1 = .creditsError "b" ∨
     (wait_build "b" [(⟨"FAILED", []⟩, 0), (⟨"ABORTED", []⟩, 0), (⟨"ERRORED", []⟩, 0)]
        3 100 none).1 = .buildError "b" "ERRORED") ∧
    (wait_build "b" [(⟨"FAILED", []⟩, 0), (⟨"ABORTED", []⟩, 0), (⟨"ERRORED", []⟩, 0)]
        3 100 none).2 =
      [.poll "FAILED", .sleepEv 3, .poll "ABORTED", .sleepEv 3, .poll "ERRORED"] :=
  C2_three_errors_confirm "b" "FAILED" "ABORTED" "ERRORED" [] [] [] 0 0 0 [] 3 100 none
    (by decide) (by decide) (by decide) (by norm_num) (by norm_num) (by norm_num)

/-- C3: a poll observing an Active status resets the error counter to 0,
sleeps the poll interval and keeps polling (first conjunct, for any counter
value); consequently 1 or 2 error-candidate observations followed by an
Active one do not fail, and do not fail either after 2 further
error-candidates (second and third conjuncts end in `exhausted`, not in an
error), while a 3rd new consecutive error-candidate then does trigger the
failure (last conjunct). -/
theorem C3_active_resets_counter (b a e1 e2 e3 e4 e5 : String)
    (tkA tk1 tk2 tk3 tk4 tk5 : List Task) (delay ab : ℚ) (cr : Option String)
    (ha : a ∈ ACTIVE_STATUSES)
    (h1 : e1 ∈ ERROR_STATUSES) (h2 : e2 ∈ ERROR_STATUSES) (h3 : e3 ∈ ERROR_STATUSES)
    (h4 : e4 ∈ ERROR_STATUSES) (h5 : e5 ∈ ERROR_STATUSES)
    (hd : 0 ≤ delay) (hab : 5 * delay < ab) :
    (∀ (tk : List Task) (c t : ℚ) (ec : Nat) (rest : List (BuildStatusResponse × ℚ)),
      t < 0 + ab →
      wait_build_loop b delay ab 0 cr ((⟨a, tk⟩, c) :: rest) t ec =
        ((wait_build_loop b delay ab 0 cr rest (t + c + delay) 0).1,
         .poll a :: .sleepEv delay ::
           (wait_build_loop b delay ab 0 cr rest (t + c + delay) 0).2)) ∧
    (wait_build b [(⟨e1, tk1⟩, 0), (⟨a, tkA⟩, 0), (⟨e3, tk3⟩, 0), (⟨e4, tk4⟩, 0)]
        delay ab cr).1 = .exhausted ∧
    (wait_build b [(⟨e1, tk1⟩, 0), (⟨e2, tk2⟩, 0), (⟨a, tkA⟩, 0), (⟨e3, tk3⟩, 0),
        (⟨e4, tk4⟩, 0)] delay ab cr).1 = .exhausted ∧
    ((wait_build b [(⟨e1, tk1⟩, 0), (⟨e2, tk2⟩, 0), (⟨a, tkA⟩, 0), (⟨e3, tk3⟩, 0),
        (⟨e4, tk4⟩, 0), (⟨e5, tk5⟩, 0)] delay ab cr).1 = .creditsError b ∨
     (wait_build b [(⟨e1, tk1⟩, 0), (⟨e2, tk2⟩, 0), (⟨a, tkA⟩, 0), (⟨e3, tk3⟩, 0),
        (⟨e4, tk4⟩, 0), (⟨e5, tk5⟩, 0)] delay ab cr).1 = .buildError b e5) := by
  refine ⟨fun tk c t ec rest ht =>
    wait_build_loop_active b delay ab 0 cr a tk c rest t ec ha ht, ?_, ?_, ?_⟩
  · rw [wait_build,
      wait_build_loop_error_step b delay ab 0 cr e1 tk1 0 _ 0 0 h1
        (by linarith) (by decide),
      wait_build_loop_active b delay ab 0 cr a tkA 0 _ (0 + 0 + delay) 1 ha
        (by linarith),
      wait_build_loop_error_step b delay ab 0 cr e3 tk3 0 _ (0 + 0 + delay + 0 + delay)
        0 h3 (by linarith) (by decide),
      wait_build_loop_error_step b delay ab 0 cr e4 tk4 0 _
        (0 + 0 + delay + 0 + delay + 0 + delay) 1 h4 (by linarith) (by decide),
      wait_build_loop_nil b delay ab 0 cr
        (0 + 0 + delay + 0 + delay + 0 + delay + 0 + delay) 2 (by linarith)]
  · rw [wait_build,
      wait_build_loop_error_step b delay ab 0 cr e1 tk1 0 _ 0 0 h1
        (by linarith) (by decide),
      wait_build_loop_error_step b delay ab 0 cr e2 tk2 0 _ (0 + 0 + delay) 1 h2
        (by linarith) (by decide),
      wait_build_loop_active b delay ab 0 cr a tkA 0 _ (0 + 0 + delay + 0 + delay) 2 ha
        (by linarith),
      wait_build_loop_error_step b delay ab 0 cr e3 tk3 0 _
        (0 + 0 + delay + 0 + delay + 0 + delay) 0 h3 (by linarith) (by decide),
      wait_build_loop_error_step b delay ab 0 cr e4 tk4 0 _
        (0 + 0 + delay + 0 + delay + 0 + delay + 0 + delay) 1 h4
        (by linarith) (by decide),
      wait_build_loop_nil b delay ab 0 cr
        (0 + 0 + delay + 0 + delay + 0 + delay + 0 + delay + 0 + delay) 2 (by linarith)]
  · rw [wait_build,
      wait_build_loop_error_step b delay ab 0 cr e1 tk1 0 _ 0 0 h1
        (by linarith) (by decide),
      wait_build_loop_error_step b delay ab 0 cr e2 tk2 0 _ (0 + 0 + delay) 1 h2
        (by linarith) (by decide),
      wait_build_loop_active b delay ab 0 cr a tkA 0 _ (0 + 0 + delay + 0 + delay) 2 ha
        (by linarith),
      wait_build_loop_error_step b delay ab 0 cr e3 tk3 0 _
        (0 + 0 + delay + 0 + delay + 0 + delay) 0 h3 (by linarith) (by decide),
      wait_build_loop_error_step b delay ab 0 cr e4 tk4 0 _
        (0 + 0 + delay + 0 + delay + 0 + delay + 0 + delay) 1 h4
        (by linarith) (by decide),
      wait_build_loop_error_confirm b delay ab 0 cr e5 tk5 0 _
        (0 + 0 + delay + 0 + delay + 0 + delay + 0 + delay + 0 + delay) 2 h5
        (by linarith) (by decide)]
    by_cases hcd : creditsDetected cr tk5 <;> simp [hcd]

/-- C3, witness: two `FAILED` observations, an `EXECUTING` one, then two
more `FAILED` do not fail the poller; a further `ABORTED` (the 3rd new
consecutive error-candidate) fails it. -/
theorem C3_active_resets_counter_witness :
    (wait_build "b" [(⟨"FAILED", []⟩, 0), (⟨"FAILED", []⟩, 0), (⟨"EXECUTING", []⟩, 0),
        (⟨"FAILED", []⟩, 0), (⟨"FAILED", []⟩, 0)] 3 100 none).1 = .exhausted ∧
    ((wait_build "b" [(⟨"FAILED", []⟩, 0), (⟨"FAILED", []⟩, 0), (⟨"EXECUTING", []⟩, 0),
        (⟨"FAILED", []⟩, 0), (⟨"FAILED", []⟩, 0), (⟨"ABORTED", []⟩, 0)] 3 100 none).1 =
      .creditsError "b" ∨
     (wait_build "b" [(⟨"FAILED", []⟩, 0), (⟨"FAILED", []⟩, 0), (⟨"EXECUTING", []⟩, 0),
        (⟨"FAILED", []⟩, 0), (⟨"FAILED", []⟩, 0), (⟨"ABORTED", []⟩, 0)] 3 100 none).1 =
      .buildError "b" "ABORTED") :=
  ⟨(C3_active_resets_counter "b" "EXECUTING" "FAILED" "FAILED" "FAILED" "FAILED"
      "ABORTED" [] [] [] [] [] [] 3 100 none (by decide) (by decide) (by decide)
      (by decide) (by decide) (by decide) (by norm_num) (by norm_num)).2.2.1,
   (C3_active_resets_counter "b" "EXECUTING" "FAILED" "FAILED" "FAILED" "FAILED"
      "ABORTED" [] [] [] [] [] [] 3 100 none (by decide) (by decide) (by decide)
      (by decide) (by decide) (by decide) (by norm_num) (by norm_num)).2.2.2⟩

/-- C4: on the confirming third error-candidate observation, with a
configured credits recognizer, the raised error is the credits one exactly
when some notification message of some task of the last-fetched build
response contains the recognizer — and then it is never the generic build
failure; otherwise it is the generic build failure carrying the last
observed status. -/
theorem C4_credits_recognizer_decides (b s1 s2 s3 msg : String)
    (tk1 tk2 tk3 : List Task) (c1 c2 c3 : ℚ) (rest : List (BuildStatusResponse × ℚ))
    (delay ab : ℚ)
    (h1 : s1 ∈ ERROR_STATUSES) (h2 : s2 ∈ ERROR_STATUSES) (h3 : s3 ∈ ERROR_STATUSES)
    (t0 : 0 < ab) (t1 : c1 + delay < ab) (t2 : c1 + delay + c2 + delay < ab) :
    ((∃ task ∈ tk3, ∃ notif ∈ task.notifications, strIn msg notif.message = true) →
      (wait_build b ((⟨s1, tk1⟩, c1) :: (⟨s2, tk2⟩, c2) :: (⟨s3, tk3⟩, c3) :: rest)
        delay ab (some msg)).1 = .creditsError b ∧
      ∀ st : String,
        (wait_build b ((⟨s1, tk1⟩, c1) :: (⟨s2, tk2⟩, c2) :: (⟨s3, tk3⟩, c3) :: rest)
          delay ab (some msg)).1 ≠ .buildError b st) ∧
    ((¬ ∃ task ∈ tk3, ∃ notif ∈ task.notifications, strIn msg notif.message = true) →
      (wait_build b ((⟨s1, tk1⟩, c1) :: (⟨s2, tk2⟩, c2) :: (⟨s3, tk3⟩, c3) :: rest)
        delay ab (some msg)).1 = .buildError b s3) := by
  rw [wait_build,
    wait_build_loop_error_step b delay ab 0 (some msg) s1 tk1 c1 _ 0 0 h1
      (by linarith) (by decide),
    wait_build_loop_error_step b delay ab 0 (some msg) s2 tk2 c2 _ (0 + c1 + delay) 1 h2
      (by linarith) (by decide),
    wait_build_loop_error_confirm b delay ab 0 (some msg) s3 tk3 c3 rest
      (0 + c1 + delay + c2 + delay) 2 h3 (by linarith) (by decide)]
  constructor
  · intro hex
    have hcd : creditsDetected (some msg) tk3 = true :=
      (creditsDetected_some_iff msg tk3).mpr hex
    simp [hcd]
  · intro hex
    have hcd : ¬ creditsDetected (some msg) tk3 = true := fun h =>
      hex ((creditsDetected_some_iff msg tk3).mp h)
    simp [hcd]

/-- C4, witness: with recognizer `credits`, a confirmed-failed build whose
last response carries a notification containing it raises the credits
error, and one whose notifications do not contain it raises the generic
build error with the last status. -/
theorem C4_credits_recognizer_decides_witness :
    (wait_build "b" [(⟨"FAILED", []⟩, 0), (⟨"FAILED", []⟩, 0),
        (⟨"ERRORED", [⟨[⟨"ran out of credits today"⟩]⟩]⟩, 0)] 3 100 (some "credits")).1 =
      .creditsError "b" ∧
    (wait_build "b" [(⟨"FAILED", []⟩, 0), (⟨"FAILED", []⟩, 0),
        (⟨"ERRORED", [⟨[⟨"just broken"⟩]⟩]⟩, 0)] 3 100 (some "credits")).1 =
      .buildError "b" "ERRORED" :=
  ⟨((C4_credits_recognizer_decides "b" "FAILED" "FAILED" "ERRORED" "credits" [] []
      [⟨[⟨"ran out of credits today"⟩]⟩] 0 0 0 [] 3 100
      (by decide) (by decide) (by decide) (by norm_num) (by norm_num) (by norm_num)).1
      ⟨⟨[⟨"ran out of credits today"⟩]⟩, by decide,
        ⟨"ran out of credits today"⟩, by decide, by decide⟩).1,
   (C4_credits_recognizer_decides "b" "FAILED" "FAILED" "ERRORED" "credits" [] []
      [⟨[⟨"just broken"⟩]⟩] 0 0 0 [] 3 100
      (by decide) (by decide) (by decide) (by norm_num) (by norm_num) (by norm_num)).2
      (by decide)⟩

/-- C5: a status outside the known enumeration makes the poller fail at
once with the protocol error (`ValueError`): the cycle's trace is the poll
alone — no sleep, no further poll — whatever the error counter holds. -/
theorem C5_unknown_status_immediate (b s : String) (tk : List Task) (c : ℚ)
    (rest : List (BuildStatusResponse × ℚ)) (delay ab ts t : ℚ) (cr : Option String)
    (ec : Nat)
    (hs1 : s ∉ COMPLETED_STATUSES) (hs2 : s ∉ ACTIVE_STATUSES) (hs3 : s ∉ ERROR_STATUSES)
    (h : t < ts + ab) :
    wait_build_loop b delay ab ts cr ((⟨s, tk⟩, c) :: rest) t ec =
      (.valueError b s, [.poll s]) :=
  wait_build_loop_unknown b delay ab ts cr s tk c rest t ec hs1 hs2 hs3 h

/-- C5, witness. -/
theorem C5_unknown_status_immediate_witness :
    wait_build_loop "b" 3 100 0 none [(⟨"BOGUS", []⟩, 0), (⟨"FAILED", []⟩, 0)] 0 2 =
      (.valueError "b" "BOGUS", [.poll "BOGUS"]) :=
  C5_unknown_status_immediate "b" "BOGUS" [] 0 [(⟨"FAILED", []⟩, 0)] 3 100 0 0 none 2
    (by decide) (by decide) (by decide) (by norm_num)

/-- C6: the elapsed-time check happens at cycle boundaries only.  At a
boundary with elapsed time at or past the timeout the poller raises the
timeout error and issues no poll (the trace from that point is empty) —
also on the very first cycle, where `wait_build` starts with elapsed time 0.
Once the check has passed, the poll runs to completion even when its own
cost `c` pushes elapsed time past the deadline: a COMPLETED reply still
returns success rather than the timeout error. -/
theorem C6_timeout_checked_at_cycle_boundary (b : String) (delay ab ts t c : ℚ)
    (cr : Option String) (tk : List Task) (resp : BuildStatusResponse)
    (rest : List (BuildStatusResponse × ℚ)) (responses : List (BuildStatusResponse × ℚ))
    (ec : Nat) :
    (¬ t < ts + ab →
      wait_build_loop b delay ab ts cr ((resp, c) :: rest) t ec = (.timeoutError b, [])) ∧
    (ab ≤ 0 → wait_build b responses delay ab cr = (.timeoutError b, [])) ∧
    (t < ts + ab →
      wait_build_loop b delay ab ts cr ((⟨"COMPLETED", tk⟩, c) :: rest) t ec =
        (.success, [.poll "COMPLETED"])) := by
  refine ⟨fun h => wait_build_loop_timeout b delay ab ts cr _ t ec h, fun h => ?_,
    fun h => wait_build_loop_completed b delay ab ts cr tk c rest t ec h⟩
  exact wait_build_loop_timeout b delay ab 0 cr responses 0 0 (by linarith)

/-- C6, witness: with timeout 10, a cycle starting at elapsed time 5 whose
poll costs 100 still completes (success on COMPLETED), while a cycle
starting at elapsed time 12 raises the timeout error without polling. -/
theorem C6_timeout_checked_at_cycle_boundary_witness :
    wait_build_loop "b" 3 10 0 none [(⟨"COMPLETED", []⟩, 100)] 5 0 =
      (.success, [.poll "COMPLETED"]) ∧
    wait_build_loop "b" 3 10 0 none [(⟨"COMPLETED", []⟩, 100)] 12 0 =
      (.timeoutError "b", []) ∧
    wait_build "b" [(⟨"COMPLETED", []⟩, 100)] 3 0 none = (.timeoutError "b", []) :=
  ⟨(C6_timeout_checked_at_cycle_boundary "b" 3 10 0 5 100 none [] ⟨"COMPLETED", []⟩
      [] [] 0).2.2 (by norm_num),
   (C6_timeout_checked_at_cycle_boundary "b" 3 10 0 12 100 none [] ⟨"COMPLETED", []⟩
      [] [] 0).1 (by norm_num),
   (C6_timeout_checked_at_cycle_boundary "b" 3 0 0 0 100 none [] ⟨"COMPLETED", []⟩
      [] [(⟨"COMPLETED", []⟩, 100)] 0).2.1 (by norm_num)⟩

/-- C7 (spec-modelled transport): on a call failing all attempts, the long
delay is slept only when the first attempt's body carries the retry hint;
every later failed attempt sleeps the short delay even if the hint recurs
(the traces below hold whatever `hint` returns on the later bodies), and
the long-delay diagnostic is logged exactly once with the hint present on
the first failure and never otherwise.  Counting a positive total
processing overhead `O` small against the delays, the total elapsed time
lies strictly between `longD + 2 * shortD` and `3 * longD` with the hint,
and strictly between `3 * shortD` and `longD + 2 * shortD` without it. -/
theorem C7_long_delay_first_failure_only (shortD longD O : ℚ) (hint : String → Bool)
    (responses : Nat → HttpResponse)
    (hfail : ∀ i < ATTEMPT_CAP, attemptFailed (responses i) = true)
    (hO : 0 < O) (hOd : O < longD - shortD) :
    (hint (responses 0).text = true →
      (transport_call shortD longD hint responses).2 =
        [.attempt 0, .logLongDelay, .sleepT longD, .attempt 1, .sleepT shortD,
         .attempt 2, .sleepT shortD, .attempt 3] ∧
      logLongCount (transport_call shortD longD hint responses).2 = 1 ∧
      longD + 2 * shortD < sleepSum (transport_call shortD longD hint responses).2 + O ∧
      sleepSum (transport_call shortD longD hint responses).2 + O < 3 * longD) ∧
    (hint (responses 0).text = false →
      (transport_call shortD longD hint responses).2 =
        [.attempt 0, .sleepT shortD, .attempt 1, .sleepT shortD,
         .attempt 2, .sleepT shortD, .attempt 3] ∧
      logLongCount (transport_call shortD longD hint responses).2 = 0 ∧
      3 * shortD < sleepSum (transport_call shortD longD hint responses).2 + O ∧
      sleepSum (transport_call shortD longD hint responses).2 + O <
        longD + 2 * shortD) := by
  have h0 := hfail 0 (by norm_num [ATTEMPT_CAP])
  have h1 := hfail 1 (by norm_num [ATTEMPT_CAP])
  have h2 := hfail 2 (by norm_num [ATTEMPT_CAP])
  have h3 := hfail 3 (by norm_num [ATTEMPT_CAP])
  constructor
  · intro hh
    have htrace : (transport_call shortD longD hint responses).2 =
        [.attempt 0, .logLongDelay, .sleepT longD, .attempt 1, .sleepT shortD,
         .attempt 2, .sleepT shortD, .attempt 3] := by
      simp [transport_call, ATTEMPT_CAP, transport_go, h0, h1, h2, h3, hh]
    rw [htrace]
    refine ⟨rfl, by simp [logLongCount], ?_, ?_⟩ <;>
      · simp only [sleepSum, List.map, List.sum_cons, List.sum_nil]
        linarith
  · intro hh
    have htrace : (transport_call shortD longD hint responses).2 =
        [.attempt 0, .sleepT shortD, .attempt 1, .sleepT shortD,
         .attempt 2, .sleepT shortD, .attempt 3] := by
      simp [transport_call, ATTEMPT_CAP, transport_go, h0, h1, h2, h3, hh]
    rw [htrace]
    refine ⟨rfl, by simp [logLongCount], ?_, ?_⟩ <;>
      · simp only [sleepSum, List.map, List.sum_cons, List.sum_nil]
        linarith

/-- C7, witness: short delay 1, long delay 10, overhead 5; with the hint in
every 502 body, the trace sleeps 10, 1, 1 and logs the diagnostic once. -/
theorem C7_long_delay_first_failure_only_witness :
    (transport_call 1 10 (fun s => strIn "try again" s)
        (fun _ => ⟨502, "Please try again in 30 seconds."⟩)).2 =
      [.attempt 0, .logLongDelay, .sleepT 10, .attempt 1, .sleepT 1,
       .attempt 2, .sleepT 1, .attempt 3] ∧
    logLongCount (transport_call 1 10 (fun s => strIn "try again" s)
        (fun _ => ⟨502, "Please try again in 30 seconds."⟩)).2 = 1 :=
  have h := (C7_long_delay_first_failure_only 1 10 5 (fun s => strIn "try again" s)
    (fun _ => ⟨502, "Please try again in 30 seconds."⟩)
    (by intro i _; norm_num [attemptFailed]) (by norm_num) (by norm_num)).1 (by decide)
  ⟨h.1, h.2.1⟩

/-- C8 (spec-modelled transport): a call whose 4 budgeted attempts all fail
with a 5xx response raises the HTTP-failure error carrying the last (4th)
response's status and body; the trace holds exactly 4 attempts and no
attempt with an index beyond the budget is ever issued. -/
theorem C8_attempt_budget_exhausted (shortD longD : ℚ) (hint : String → Bool)
    (responses : Nat → HttpResponse)
    (h5xx : ∀ i < ATTEMPT_CAP, 500 ≤ (responses i).status_code) :
    (transport_call shortD longD hint responses).1 =
      .httpError (responses 3).status_code (responses 3).text ∧
    attemptCount (transport_call shortD longD hint responses).2 = ATTEMPT_CAP ∧
    ∀ i : Nat, TEvent.attempt i ∈ (transport_call shortD longD hint responses).2 →
      i < ATTEMPT_CAP := by
  have hfail : ∀ i, i < ATTEMPT_CAP → attemptFailed (responses i) = true := by
    intro i hi
    have := h5xx i hi
    simp only [attemptFailed, decide_eq_true_eq]
    omega
  have h0 := hfail 0 (by norm_num [ATTEMPT_CAP])
  have h1 := hfail 1 (by norm_num [ATTEMPT_CAP])
  have h2 := hfail 2 (by norm_num [ATTEMPT_CAP])
  have h3 := hfail 3 (by norm_num [ATTEMPT_CAP])
  by_cases hh : hint (responses 0).text = true
  · have htrace : (transport_call shortD longD hint responses).2 =
        [.attempt 0, .logLongDelay, .sleepT longD, .attempt 1, .sleepT shortD,
         .attempt 2, .sleepT shortD, .attempt 3] := by
      simp [transport_call, ATTEMPT_CAP, transport_go, h0, h1, h2, h3, hh]
    refine ⟨?_, ?_, ?_⟩
    · simp [transport_call, ATTEMPT_CAP, transport_go, h0, h1, h2, h3, hh]
    · rw [htrace]; simp [attemptCount, ATTEMPT_CAP]
    · intro i hi
      rw [htrace] at hi
      simp only [List.mem_cons, List.not_mem_nil, or_false] at hi
      rcases hi with h | h | h | h | h | h | h | h <;>
        first
          | (cases h; norm_num [ATTEMPT_CAP])
          | exact absurd h (by simp)
  · have hh' : hint (responses 0).text = false := by
      cases hb : hint (responses 0).text
      · rfl
      · exact absurd hb hh
    have htrace : (transport_call shortD longD hint responses).2 =
        [.attempt 0, .sleepT shortD, .attempt 1, .sleepT shortD,
         .attempt 2, .sleepT shortD, .attempt 3] := by
      simp [transport_call, ATTEMPT_CAP, transport_go, h0, h1, h2, h3, hh']
    refine ⟨?_, ?_, ?_⟩
    · simp [transport_call, ATTEMPT_CAP, transport_go, h0, h1, h2, h3, hh']
    · rw [htrace]; simp [attemptCount, ATTEMPT_CAP]
    · intro i hi
      rw [htrace] at hi
      simp only [List.mem_cons, List.not_mem_nil, or_false] at hi
      rcases hi with h | h | h | h | h | h | h <;>
        first
          | (cases h; norm_num [ATTEMPT_CAP])
          | exact absurd h (by simp)

/-- C8, witness: four 502 responses exhaust the budget and surface the last
status and body in the HTTP-failure error. -/
theorem C8_attempt_budget_exhausted_witness :
    (transport_call 1 10 (fun _ => false) (fun i => ⟨502, toString i⟩)).1 =
      .httpError 502 "3" ∧
    attemptCount (transport_call 1 10 (fun _ => false) (fun i => ⟨502, toString i⟩)).2 =
      ATTEMPT_CAP :=
  have h := C8_attempt_budget_exhausted 1 10 (fun _ => false) (fun i => ⟨502, toString i⟩)
    (by intro i _; norm_num)
  ⟨h.1, h.2.1⟩

/-- C9: `build_log` yields, task by task in service order, a task header
chunk, then per command a command header chunk followed by the fetched body
on success or the `Unable to fetch url` placeholder on failure; a failed
fetch on one command leaves all following chunks intact.  Shown on the
spec's 2-task shape (2 commands, then 0): once with the second fetch
failing (oracle `get`), once with both succeeding (oracle `getOk`). -/
theorem C9_build_log_order_and_resilience (get getOk : String → HttpResponse)
    (id1 n1 id2 n2 cn1 cn2 body1 bodyOk1 bodyOk2 : String)
    (h1 : get (log_url ⟨id1, n1, [⟨cn1⟩, ⟨cn2⟩]⟩ ⟨cn1⟩) = ⟨200, body1⟩)
    (h2 : (get (log_url ⟨id1, n1, [⟨cn1⟩, ⟨cn2⟩]⟩ ⟨cn2⟩)).status_code ≠ 200)
    (h3 : getOk (log_url ⟨id1, n1, [⟨cn1⟩, ⟨cn2⟩]⟩ ⟨cn1⟩) = ⟨200, bodyOk1⟩)
    (h4 : getOk (log_url ⟨id1, n1, [⟨cn1⟩, ⟨cn2⟩]⟩ ⟨cn2⟩) = ⟨200, bodyOk2⟩) :
    build_log get [⟨id1, n1, [⟨cn1⟩, ⟨cn2⟩]⟩, ⟨id2, n2, []⟩] =
      ["\n## Task: " ++ n1,
       "\n## Task instruction: " ++ cn1, body1,
       "\n## Task instruction: " ++ cn2,
       "Unable to fetch url: " ++ log_url ⟨id1, n1, [⟨cn1⟩, ⟨cn2⟩]⟩ ⟨cn2⟩,
       "\n## Task: " ++ n2] ∧
    build_log getOk [⟨id1, n1, [⟨cn1⟩, ⟨cn2⟩]⟩, ⟨id2, n2, []⟩] =
      ["\n## Task: " ++ n1,
       "\n## Task instruction: " ++ cn1, bodyOk1,
       "\n## Task instruction: " ++ cn2, bodyOk2,
       "\n## Task: " ++ n2] := by
  constructor
  · simp [build_log, task_chunks, command_chunks, h1, h2]
  · simp [build_log, task_chunks, command_chunks, h3, h4]

/-- C9, witness. -/
theorem C9_build_log_order_and_resilience_witness :
    build_log
      (fun u => if u = "https://api.cirrus-ci.com/v1/task/t1/logs/c1.log"
        then ⟨200, "BODY1"⟩ else ⟨500, "err"⟩)
      [⟨"t1", "T1", [⟨"c1"⟩, ⟨"c2"⟩]⟩, ⟨"t2", "T2", []⟩] =
      ["\n## Task: T1",
       "\n## Task instruction: c1", "BODY1",
       "\n## Task instruction: c2",
       "Unable to fetch url: https://api.cirrus-ci.com/v1/task/t1/logs/c2.log",
       "\n## Task: T2"] := by
  have h := (C9_build_log_order_and_resilience
    (fun u => if u = "https://api.cirrus-ci.com/v1/task/t1/logs/c1.log"
      then ⟨200, "BODY1"⟩ else ⟨500, "err"⟩)
    (fun _ => ⟨200, "OK"⟩) "t1" "T1" "t2" "T2" "c1" "c2" "BODY1" "OK" "OK"
    (by decide) (by decide) (by decide) (by decide)).1
  simpa [log_url] using h

/-- C10: `build_log` yields the fetched body only when the status code is
exactly 200; any other code — also other 2xx successes such as 201 or
204 — yields the placeholder chunk instead. -/
theorem C10_body_only_on_exactly_200 (get : String → HttpResponse)
    (tid tn cn : String) (code : Nat) (body : String)
    (hresp : get (log_url ⟨tid, tn, [⟨cn⟩]⟩ ⟨cn⟩) = ⟨code, body⟩) :
    (code = 200 →
      build_log get [⟨tid, tn, [⟨cn⟩]⟩] =
        ["\n## Task: " ++ tn, "\n## Task instruction: " ++ cn, body]) ∧
    (code ≠ 200 →
      build_log get [⟨tid, tn, [⟨cn⟩]⟩] =
        ["\n## Task: " ++ tn, "\n## Task instruction: " ++ cn,
         "Unable to fetch url: " ++ log_url ⟨tid, tn, [⟨cn⟩]⟩ ⟨cn⟩]) := by
  constructor <;> intro hc <;> simp [build_log, task_chunks, command_chunks, hresp, hc]

/-- C10, witness: a 204 response — a 2xx success that is not 200 — yields
the placeholder, while a 200 response yields the body. -/
theorem C10_body_only_on_exactly_200_witness :
    build_log (fun _ => ⟨204, "BODY"⟩) [⟨"t1", "T1", [⟨"c1"⟩]⟩] =
      ["\n## Task: T1", "\n## Task instruction: c1",
       "Unable to fetch url: https://api.cirrus-ci.com/v1/task/t1/logs/c1.log"] ∧
    build_log (fun _ => ⟨200, "BODY"⟩) [⟨"t1", "T1", [⟨"c1"⟩]⟩] =
      ["\n## Task: T1", "\n## Task instruction: c1", "BODY"] := by
  constructor
  · have h := (C10_body_only_on_exactly_200 (fun _ => ⟨204, "BODY"⟩)
      "t1" "T1" "c1" 204 "BODY" (by decide)).2 (by decide)
    simpa [log_url] using h
  · have h := (C10_body_only_on_exactly_200 (fun _ => ⟨200, "BODY"⟩)
      "t1" "T1" "c1" 200 "BODY" (by decide)).1 (by decide)
    simpa [log_url] using h

end CirrusRun

